import Mathlib

/-!
Verification of the `backend` repository: a GPA calculator
(`src/gpa_calculator.py`) and a retrieval-augmented chat engine
(`src/rag_chatbot.py`), shallowly embedded in Lean 4.

Python floats are modelled as rationals (`ℚ`); Python's `round(x, 2)`
(round-half-to-even) is modelled exactly on rationals by `round2`.
Python dictionaries are modelled as association lists with `dictGet` /
`dictSet`. Fallible Python code (code that may raise) returns
`Except String _`; a raised exception is the `.error` constructor.
External services (the generative model, the QA chain, the similarity
retriever) are oracles bundled in `ChatEnv`; an oracle answering `none`
models that service call raising an exception.
-/

set_option autoImplicit false

namespace Backend

/-! ### Association lists (Python `dict`) -/

/-- Lookup in an association list; models Python `d.get(k)` / `k in d`. -/
def dictGet {α : Type} : List (String × α) → String → Option α
  | [], _ => none
  | (k, v) :: rest, key => if k = key then some v else dictGet rest key

/-- Update/insert in an association list; models Python `d[k] = v`
(insertion order preserved, new keys appended at the end). -/
def dictSet {α : Type} : List (String × α) → String → α → List (String × α)
  | [], key, v => [(key, v)]
  | (k, w) :: rest, key, v =>
    if k = key then (key, v) :: rest else (k, w) :: dictSet rest key v

/-! ### Embedding of `src/gpa_calculator.py` -/

/-- `GPACourse` dataclass (gpa_calculator.py lines 4-8); `credits` is a
Python float, modelled as `ℚ`. -/
structure GPACourse where
  name : String
  credits : ℚ
  grade : String
deriving Repr, DecidableEq

/-- `GRADE_POINTS` mapping (gpa_calculator.py lines 11-25). -/
def GRADE_POINTS : List (String × ℚ) :=
  [("A+", 4), ("A", 4), ("A-", 37/10), ("B+", 33/10), ("B", 3), ("B-", 27/10),
   ("C+", 23/10), ("C", 2), ("C-", 17/10), ("D+", 13/10), ("D", 1),
   ("D-", 7/10), ("F", 0)]

/-- The 13 recognized grade symbols, in table order. -/
def validGrades : List String := GRADE_POINTS.map Prod.fst

/-- The whitespace test CPython's `str.strip()` / `str.isspace()` use
(`Py_UNICODE_ISSPACE`): U+0009-U+000D, U+001C-U+001F, space, U+0085
(NEL), U+00A0 (NBSP), U+1680, U+2000-U+200A, U+2028, U+2029, U+202F,
U+205F and U+3000. -/
def pyIsSpace (c : Char) : Bool :=
  (0x09 ≤ c.toNat && c.toNat ≤ 0x0d) || (0x1c ≤ c.toNat && c.toNat ≤ 0x1f) ||
  c.toNat = 0x20 || c.toNat = 0x85 || c.toNat = 0xa0 || c.toNat = 0x1680 ||
  (0x2000 ≤ c.toNat && c.toNat ≤ 0x200a) || c.toNat = 0x2028 ||
  c.toNat = 0x2029 || c.toNat = 0x202f || c.toNat = 0x205f || c.toNat = 0x3000

/-- Python `s.strip()`: drop `pyIsSpace` characters from both ends. -/
def pyStrip (s : String) : String :=
  ⟨((s.data.dropWhile pyIsSpace).reverse.dropWhile pyIsSpace).reverse⟩

/-- Python `s.upper()`, restricted to the per-character ASCII case map.
This is exact for the grade lookup that follows: the table keys are
drawn from "A".."F", "+", "-", and the only code points whose Python
uppercase is a single character among those are the ASCII letters
"a".."f" themselves (Unicode special casings such as U+017F or the
ligatures map to other letters or to multi-character strings), which
`Char.toUpper` maps identically. -/
def pyUpper (s : String) : String :=
  ⟨s.data.map Char.toUpper⟩

/-- `get_grade_points` (gpa_calculator.py lines 27-45): normalizes the
grade with `upper().strip()`, then looks it up; raises `ValueError`
(modelled as `.error`) when the normalized grade is unknown. -/
def get_grade_points (grade : String) : Except String ℚ :=
  match dictGet GRADE_POINTS (pyStrip (pyUpper grade)) with
  | none => .error ("Invalid grade: " ++ grade)
  | some p => .ok p

/-- The dictionary returned by `calculate_gpa` (lines 80-84). -/
structure GPAResult where
  gpa : ℚ
  total_credits : ℚ
  total_points : ℚ
deriving Repr, DecidableEq

/-- Round-half-to-even to the nearest integer, the rounding Python
`round` uses. -/
def roundHalfEven (q : ℚ) : ℤ :=
  if q - (⌊q⌋ : ℚ) < 1/2 then ⌊q⌋
  else if (1 : ℚ)/2 < q - (⌊q⌋ : ℚ) then ⌊q⌋ + 1
  else if ⌊q⌋ % 2 = 0 then ⌊q⌋ else ⌊q⌋ + 1

/-- Python `round(q, 2)` on exact rational values. -/
def round2 (q : ℚ) : ℚ :=
  (roundHalfEven (q * 100) : ℚ) / 100

/-- The accumulation loop of `calculate_gpa` (lines 66-73): left fold
over the courses accumulating `total_points` and `total_credits`,
propagating the `ValueError` from `get_grade_points`. -/
def gpaLoop : List GPACourse → ℚ → ℚ → Except String (ℚ × ℚ)
  | [], total_points, total_credits => .ok (total_points, total_credits)
  | course :: rest, total_points, total_credits =>
    match get_grade_points course.grade with
    | .error e => .error e
    | .ok grade_points =>
      gpaLoop rest (total_points + course.credits * grade_points)
        (total_credits + course.credits)

/-- `calculate_gpa` (gpa_calculator.py lines 47-84). -/
def calculate_gpa (courses : List GPACourse) : Except String GPAResult :=
  if courses.isEmpty then .error "No courses provided"
  else
    match gpaLoop courses 0 0 with
    | .error e => .error e
    | .ok (total_points, total_credits) =>
      if total_credits = 0 then .error "Total credits cannot be zero"
      else .ok { gpa := round2 (total_points / total_credits),
                 total_credits := round2 total_credits,
                 total_points := round2 total_points }

/-- Specification-side grade points of a (table) grade symbol. -/
def gradePointsOf (g : String) : ℚ :=
  (dictGet GRADE_POINTS g).getD 0

/-- Specification-side Σ(credits · gradePoints). -/
def totalPoints (courses : List GPACourse) : ℚ :=
  (courses.map (fun c => c.credits * gradePointsOf c.grade)).sum

/-- Specification-side Σ credits. -/
def totalCredits (courses : List GPACourse) : ℚ :=
  (courses.map (fun c => c.credits)).sum

/-- Concrete course list for the worked example of the spec:
[(3 credits, A), (3 credits, B+)]. -/
def demoCourses : List GPACourse :=
  [⟨"Course 1", 3, "A"⟩, ⟨"Course 2", 3, "B+"⟩]

/-! ### Embedding of `src/rag_chatbot.py`

The engine state is `RAGChatbot`: the optional vector store, the cached
QA-chain flag (`qa_chain = false` models `self.qa_chain is None`), and
the conversation dictionary. The Groq LLM, the composed QA chain and the
similarity retriever are external services, modelled as oracles in
`ChatEnv`; an oracle returning `none` models that call raising an
exception. `uuid.uuid4()` is modelled by an explicit `freshId` argument
to `chat`; its global uniqueness is an assumption about the UUID
generator, stated as a hypothesis where a theorem needs it. -/

/-- One history entry `{"role": ..., "content": ...}` (rag_chatbot.py
lines 182 and 208). -/
structure Turn where
  role : String
  content : String
deriving Repr, DecidableEq

/-- A LangChain `Document`: page content plus a metadata mapping
(rag_chatbot.py line 150). -/
structure Document where
  page_content : String
  metadata : List (String × String)
deriving Repr, DecidableEq

/-- The Chroma vector store: the stored documents, plus whether
`_collection.count()` currently succeeds (`countOk = false` models the
readiness check raising, rag_chatbot.py lines 89-99). -/
structure VectorStore where
  docs : List Document
  countOk : Bool
deriving Repr, DecidableEq

/-- The mutable state of a `RAGChatbot` instance: `vector_store` (line
67, `none` when Chroma construction failed, lines 71-74), `qa_chain`
presence (line 77), and `conversations` (line 81). -/
structure RAGChatbot where
  vector_store : Option VectorStore
  qa_chain : Bool
  conversations : List (String × List Turn)
deriving Repr, DecidableEq

/-- Oracles for the external services used by `chat`:
`llm` is `self.llm.invoke` (lines 187 and 203, already projected to the
response text), `qaInvoke` is `self.qa_chain.invoke` (line 193), and
`retrieve` is `retriever.get_relevant_documents` (line 197). `none`
models the call raising. -/
structure ChatEnv where
  llm : String → Option String
  qaInvoke : String → Option String
  retrieve : String → Option (List Document)

/-- The dictionary returned by `chat` (rag_chatbot.py lines 210-214). -/
structure ChatResult where
  answer : String
  conversation_id : String
  sources : List String
deriving Repr, DecidableEq

/-- `_update_qa_chain` (rag_chatbot.py lines 83-130): the chain is
dropped when the store is `None`, when the readiness check raises, or
when the collection count is zero; otherwise a retrieval chain is
built. -/
def update_qa_chain (s : RAGChatbot) : RAGChatbot :=
  match s.vector_store with
  | none => { s with qa_chain := false }
  | some vs =>
    if vs.countOk then
      if vs.docs.length = 0 then { s with qa_chain := false }
      else { s with qa_chain := true }
    else { s with qa_chain := false }

/-- `RAGChatbot.__init__` (rag_chatbot.py lines 30-81) after the
credential and LLM checks succeeded: the vector store is the result of
the Chroma constructor (`none` when it raised, lines 71-74), the QA
chain is initialized by `_update_qa_chain` (line 78), and the
conversation dictionary starts empty (line 81). -/
def mkRAGChatbot (store : Option VectorStore) : RAGChatbot :=
  update_qa_chain { vector_store := store, qa_chain := false, conversations := [] }

/-- `metadatas[i] if metadatas and i < len(metadatas) else {}`
(rag_chatbot.py line 149). -/
def metaAt (metadatas : Option (List (List (String × String)))) (i : Nat) :
    List (String × String) :=
  match metadatas with
  | none => []
  | some ms => (ms.get? i).getD []

/-- The `enumerate` loop building `doc_objects` (rag_chatbot.py lines
147-150), starting at index `i`. -/
def mkDocObjectsFrom (metadatas : Option (List (List (String × String)))) :
    Nat → List String → List Document
  | _, [] => []
  | i, t :: rest => ⟨t, metaAt metadatas i⟩ :: mkDocObjectsFrom metadatas (i + 1) rest

/-- `index_documents` (rag_chatbot.py lines 132-157): empty input is a
silent no-op (lines 140-141); a missing vector store raises `ValueError`
(lines 143-144); otherwise the documents are appended to the store and
the QA chain is refreshed (lines 147-157). -/
def index_documents (s : RAGChatbot) (documents : List String)
    (metadatas : Option (List (List (String × String)))) :
    RAGChatbot × Except String Unit :=
  if documents.isEmpty then (s, .ok ())
  else
    match s.vector_store with
    | none => (s, .error "Vector store not initialized. ChromaDB dependencies may be missing.")
    | some vs =>
      let doc_objects := mkDocObjectsFrom metadatas 0 documents
      let s1 := { s with vector_store := some { vs with docs := vs.docs ++ doc_objects } }
      (update_qa_chain s1, .ok ())

/-- Conversation-id resolution (rag_chatbot.py lines 174-175): a missing
or empty (falsy) id is replaced by a fresh `uuid4` token, a non-empty
caller-supplied id is kept as-is. -/
def resolve_cid (freshId : String) : Option String → String
  | none => freshId
  | some c => if c = "" then freshId else c

/-- The net effect on the conversation dictionary of initializing a
missing key to `[]` (rag_chatbot.py lines 178-179) followed by
appending one turn to the entry (line 182 or 208). -/
def appendTurn (convs : List (String × List Turn)) (cid : String) (t : Turn) :
    List (String × List Turn) :=
  dictSet convs cid ((dictGet convs cid).getD [] ++ [t])

/-- Python slicing `s[:n]` by code points. -/
def pySlice (s : String) (n : Nat) : String :=
  ⟨s.data.take n⟩

/-- The answer/sources computation of `chat` (rag_chatbot.py lines
185-205); it reads only `qa_chain` and `vector_store`, never the
conversation map. DIRECT mode (qa_chain absent): the LLM is invoked on
the message alone and an exception propagates. GROUNDED mode: the chain
is invoked and sources are retrieved (lines 192-200); if either raises,
the except-block falls back to the direct LLM call (lines 201-205),
whose own exception propagates. -/
def chatAnswer (env : ChatEnv) (s : RAGChatbot) (message : String) :
    Except String (String × List String) :=
  if s.qa_chain = false then
    match env.llm message with
    | none => .error "llm raised"
    | some resp => .ok (resp, [])
  else
    match env.qaInvoke message with
    | some answer =>
      match s.vector_store with
      | some _ =>
        match env.retrieve message with
        | some docs =>
          .ok (answer, docs.map (fun d => pySlice d.page_content 200 ++ "..."))
        | none =>
          match env.llm message with
          | none => .error "llm raised"
          | some resp => .ok (resp, [])
      | none => .ok (answer, [])
    | none =>
      match env.llm message with
      | none => .error "llm raised"
      | some resp => .ok (resp, [])

/-- `chat` (rag_chatbot.py lines 159-214). The user turn is appended
before the answer is computed (line 182), so it survives a propagated
exception; the assistant turn is appended only on success (line 208).
`freshId` stands for the `str(uuid.uuid4())` drawn at line 175. -/
def chat (env : ChatEnv) (freshId : String) (s : RAGChatbot) (message : String)
    (conversation_id : Option String) : RAGChatbot × Except String ChatResult :=
  let cid := resolve_cid freshId conversation_id
  let convs1 := appendTurn s.conversations cid ⟨"user", message⟩
  match chatAnswer env s message with
  | .error e => ({ s with conversations := convs1 }, .error e)
  | .ok (answer, sources) =>
    ({ s with conversations := appendTurn convs1 cid ⟨"assistant", answer⟩ },
     .ok { answer := answer, conversation_id := cid, sources := sources })

/-- The engine state `chat` leaves behind when the answer computation
raises: only the user turn was appended. -/
def chatStateErr (s : RAGChatbot) (cid message : String) : RAGChatbot :=
  { s with conversations := appendTurn s.conversations cid ⟨"user", message⟩ }

/-- The engine state `chat` leaves behind on success: the user turn,
then the assistant turn, appended to the conversation `cid`. -/
def chatStateOk (s : RAGChatbot) (cid message ans : String) : RAGChatbot :=
  { s with
    conversations := appendTurn (appendTurn s.conversations cid ⟨"user", message⟩) cid ⟨"assistant", ans⟩ }

/-- `get_conversation_history` (rag_chatbot.py lines 216-218):
`self.conversations.get(conversation_id, [])`. -/
def get_conversation_history (s : RAGChatbot) (conversation_id : String) : List Turn :=
  (dictGet s.conversations conversation_id).getD []

/-- The store-side readiness condition of the spec: the Document Store
is unreachable, currently empty, or its readiness check raises. -/
def storeNotReady (s : RAGChatbot) : Prop :=
  match s.vector_store with
  | none => True
  | some vs => vs.docs = [] ∨ vs.countOk = false

/-- The cached `qa_chain` flag agrees with the store state. -/
def ChainConsistent (s : RAGChatbot) : Prop :=
  (s.qa_chain = false) ↔ storeNotReady s

/-- Engine states reachable through the engine's own interface:
construction, indexing, and chatting. -/
inductive Reachable : RAGChatbot → Prop
  | init (store : Option VectorStore) : Reachable (mkRAGChatbot store)
  | index {s : RAGChatbot} (docs : List String)
      (metas : Option (List (List (String × String)))) :
      Reachable s → Reachable (index_documents s docs metas).1
  | chat {s : RAGChatbot} (env : ChatEnv) (fresh message : String)
      (cid : Option String) : Reachable s → Reachable (chat env fresh s message cid).1

/-! ### Concrete states and environments for witnesses -/

/-- A reachable store with one short indexed document ("hi"). -/
def groundedBot : RAGChatbot :=
  (index_documents (mkRAGChatbot (some ⟨[], true⟩)) ["hi"] none).1

/-- The engine when the Chroma constructor failed (DIRECT-only engine). -/
def directBot : RAGChatbot :=
  mkRAGChatbot none

/-- All external services succeed. -/
def envAllOk : ChatEnv :=
  ⟨fun _ => some "direct answer", fun _ => some "grounded answer",
   fun _ => some [⟨"hi", []⟩]⟩

/-- The QA chain raises; the direct LLM call succeeds. -/
def envQaRaises : ChatEnv :=
  ⟨fun _ => some "fallback answer", fun _ => none, fun _ => some [⟨"hi", []⟩]⟩

/-- Every external service raises. -/
def envAllRaise : ChatEnv :=
  ⟨fun _ => none, fun _ => none, fun _ => none⟩

/-! ### Lemmas about association lists and the chat engine -/

theorem dictGet_set_self {α : Type} (m : List (String × α)) (k : String) (v : α) :
    dictGet (dictSet m k v) k = some v := by
  induction m with
  | nil => simp [dictGet, dictSet]
  | cons p rest ih =>
    obtain ⟨k1, v1⟩ := p
    by_cases h : k1 = k
    · simp [dictSet, h, dictGet]
    · simp [dictSet, h, dictGet, ih]

theorem dictGet_set_other {α : Type} (m : List (String × α)) (k k' : String) (v : α)
    (h : k' ≠ k) : dictGet (dictSet m k v) k' = dictGet m k' := by
  induction m with
  | nil => simp [dictGet, dictSet, if_neg (Ne.symm h)]
  | cons p rest ih =>
    obtain ⟨k1, v1⟩ := p
    by_cases h1 : k1 = k
    · subst h1
      simp [dictSet, dictGet, if_neg (Ne.symm h)]
    · simp [dictSet, h1, dictGet, ih]

theorem appendTurn_get_self (m : List (String × List Turn)) (k : String) (t : Turn) :
    dictGet (appendTurn m k t) k = some ((dictGet m k).getD [] ++ [t]) :=
  dictGet_set_self m k _

theorem appendTurn_get_other (m : List (String × List Turn)) (k k' : String) (t : Turn)
    (h : k' ≠ k) : dictGet (appendTurn m k t) k' = dictGet m k' :=
  dictGet_set_other m k k' _ h

theorem chat_eq_error (env : ChatEnv) (fresh : String) (s : RAGChatbot)
    (message : String) (cid : Option String) (e : String)
    (h : chatAnswer env s message = .error e) :
    chat env fresh s message cid =
      (chatStateErr s (resolve_cid fresh cid) message, .error e) := by
  unfold chat chatStateErr
  rw [h]

theorem chat_eq_ok (env : ChatEnv) (fresh : String) (s : RAGChatbot)
    (message : String) (cid : Option String) (ans : String) (srcs : List String)
    (h : chatAnswer env s message = .ok (ans, srcs)) :
    chat env fresh s message cid =
      (chatStateOk s (resolve_cid fresh cid) message ans,
       .ok { answer := ans, conversation_id := resolve_cid fresh cid, sources := srcs }) := by
  unfold chat chatStateOk
  rw [h]

theorem chat_snd_ok_inv (env : ChatEnv) (fresh : String) (s : RAGChatbot)
    (message : String) (cid : Option String) (r : ChatResult)
    (h : (chat env fresh s message cid).2 = .ok r) :
    chatAnswer env s message = .ok (r.answer, r.sources) ∧
    r.conversation_id = resolve_cid fresh cid := by
  cases hca : chatAnswer env s message with
  | error e =>
    rw [chat_eq_error env fresh s message cid e hca] at h
    exact Except.noConfusion (show Except.error e = Except.ok r from h)
  | ok p =>
    obtain ⟨ans, srcs⟩ := p
    rw [chat_eq_ok env fresh s message cid ans srcs hca] at h
    have h2 : Except.ok (ChatResult.mk ans (resolve_cid fresh cid) srcs) = Except.ok r := h
    injection h2 with h3
    subst h3
    exact ⟨rfl, rfl⟩

theorem hist_after_chat_ok (env : ChatEnv) (fresh : String) (s : RAGChatbot)
    (message : String) (cid : Option String) (ans : String) (srcs : List String)
    (h : chatAnswer env s message = .ok (ans, srcs)) :
    get_conversation_history (chat env fresh s message cid).1 (resolve_cid fresh cid) =
      get_conversation_history s (resolve_cid fresh cid) ++
        [⟨"user", message⟩, ⟨"assistant", ans⟩] := by
  rw [chat_eq_ok env fresh s message cid ans srcs h]
  unfold get_conversation_history chatStateOk
  simp [appendTurn_get_self, List.append_assoc]

theorem hist_after_chat_error (env : ChatEnv) (fresh : String) (s : RAGChatbot)
    (message : String) (cid : Option String) (e : String)
    (h : chatAnswer env s message = .error e) :
    get_conversation_history (chat env fresh s message cid).1 (resolve_cid fresh cid) =
      get_conversation_history s (resolve_cid fresh cid) ++ [⟨"user", message⟩] := by
  rw [chat_eq_error env fresh s message cid e h]
  unfold get_conversation_history chatStateErr
  simp [appendTurn_get_self]

theorem hist_after_chat_other (env : ChatEnv) (fresh : String) (s : RAGChatbot)
    (message : String) (cid : Option String) (k : String)
    (h : k ≠ resolve_cid fresh cid) :
    get_conversation_history (chat env fresh s message cid).1 k =
      get_conversation_history s k := by
  cases hca : chatAnswer env s message with
  | error e =>
    rw [chat_eq_error env fresh s message cid e hca]
    unfold get_conversation_history chatStateErr
    simp [appendTurn_get_other _ _ _ _ h]
  | ok p =>
    obtain ⟨ans, srcs⟩ := p
    rw [chat_eq_ok env fresh s message cid ans srcs hca]
    unfold get_conversation_history chatStateOk
    simp [appendTurn_get_other _ _ _ _ h]

theorem chat_preserves_core (env : ChatEnv) (fresh : String) (s : RAGChatbot)
    (message : String) (cid : Option String) :
    (chat env fresh s message cid).1.qa_chain = s.qa_chain ∧
    (chat env fresh s message cid).1.vector_store = s.vector_store := by
  cases hca : chatAnswer env s message with
  | error e => rw [chat_eq_error env fresh s message cid e hca]; exact ⟨rfl, rfl⟩
  | ok p =>
    obtain ⟨ans, srcs⟩ := p
    rw [chat_eq_ok env fresh s message cid ans srcs hca]
    exact ⟨rfl, rfl⟩

theorem update_qa_chain_fields (s : RAGChatbot) :
    (update_qa_chain s).vector_store = s.vector_store ∧
    (update_qa_chain s).conversations = s.conversations := by
  unfold update_qa_chain
  cases s.vector_store with
  | none => exact ⟨rfl, rfl⟩
  | some vs =>
    by_cases hc : vs.countOk = true
    · by_cases hl : vs.docs.length = 0
      · simp [hc, hl]
      · simp [hc, hl]
    · simp [hc]

theorem update_qa_chain_consistent (s : RAGChatbot) :
    ChainConsistent (update_qa_chain s) := by
  have hf := (update_qa_chain_fields s).1
  unfold ChainConsistent storeNotReady
  rw [hf]
  unfold update_qa_chain
  cases s.vector_store with
  | none => simp
  | some vs =>
    by_cases hc : vs.countOk = true
    · by_cases hl : vs.docs.length = 0
      · simp [hc, hl, List.length_eq_zero.mp hl]
      · have hne : vs.docs ≠ [] := fun hh => hl (by rw [hh]; rfl)
        simp [hc, hl, hne]
    · have hc' : vs.countOk = false := by
        cases hb : vs.countOk
        · rfl
        · exact absurd hb hc
      simp [hc']

theorem index_preserves_consistent {s : RAGChatbot} (h : ChainConsistent s)
    (docs : List String) (metas : Option (List (List (String × String)))) :
    ChainConsistent (index_documents s docs metas).1 := by
  unfold index_documents
  by_cases hd : docs.isEmpty
  · simp [hd, h]
  · cases hvs : s.vector_store with
    | none => simp [hd, hvs, h]
    | some vs => simp [hd, hvs, update_qa_chain_consistent]

theorem chat_preserves_consistent {s : RAGChatbot} (h : ChainConsistent s)
    (env : ChatEnv) (fresh message : String) (cid : Option String) :
    ChainConsistent (chat env fresh s message cid).1 := by
  obtain ⟨h1, h2⟩ := chat_preserves_core env fresh s message cid
  unfold ChainConsistent storeNotReady at h ⊢
  rw [h1, h2]
  exact h

theorem reachable_consistent {s : RAGChatbot} (h : Reachable s) : ChainConsistent s := by
  induction h with
  | init store => exact update_qa_chain_consistent _
  | index docs metas _ ih => exact index_preserves_consistent ih docs metas
  | chat env fresh message cid _ ih => exact chat_preserves_consistent ih env fresh message cid

/-! ### Lemmas about the GPA embedding -/

theorem round2_int (q : ℚ) (n : ℤ) (h : q * 100 = n) : round2 q = q := by
  have hf : ⌊q * 100⌋ = n := by rw [h]; exact Int.floor_intCast n
  unfold round2 roundHalfEven
  rw [hf, h, sub_self]
  rw [if_pos (by norm_num : (0:ℚ) < 1/2)]
  have hn : (n : ℚ) = q * 100 := h.symm
  rw [hn]; ring

theorem get_grade_points_valid {g : String} (hg : g ∈ validGrades) :
    get_grade_points g = .ok (gradePointsOf g) := by
  fin_cases hg <;> rfl

theorem get_grade_points_strips_nbsp : get_grade_points "A\xa0" = .ok 4 := by
  rfl

theorem totalPoints_cons (c : GPACourse) (rest : List GPACourse) :
    totalPoints (c :: rest) = c.credits * gradePointsOf c.grade + totalPoints rest := by
  simp [totalPoints]

theorem totalCredits_cons (c : GPACourse) (rest : List GPACourse) :
    totalCredits (c :: rest) = c.credits + totalCredits rest := by
  simp [totalCredits]

theorem gpaLoop_eq_ok (courses : List GPACourse)
    (h : ∀ c ∈ courses, c.grade ∈ validGrades) :
    ∀ tp tc : ℚ, gpaLoop courses tp tc =
      .ok (tp + totalPoints courses, tc + totalCredits courses) := by
  induction courses with
  | nil => intro tp tc; simp [gpaLoop, totalPoints, totalCredits]
  | cons c rest ih =>
    intro tp tc
    simp only [gpaLoop, get_grade_points_valid (h c (List.mem_cons_self c rest))]
    rw [ih (fun x hx => h x (List.mem_cons_of_mem c hx))]
    rw [totalPoints_cons, totalCredits_cons]
    ring_nf

theorem totalCredits_pos (courses : List GPACourse) (hne : courses ≠ [])
    (hcred : ∀ c ∈ courses, 0 < c.credits) : 0 < totalCredits courses := by
  induction courses with
  | nil => exact absurd rfl hne
  | cons c rest ih =>
    rw [totalCredits_cons]
    cases rest with
    | nil => simpa [totalCredits] using hcred c (by simp)
    | cons d ds =>
      have h1 : 0 < c.credits := hcred c (by simp)
      have h2 : 0 < totalCredits (d :: ds) :=
        ih (by simp) (fun x hx => hcred x (List.mem_cons_of_mem c hx))
      linarith

theorem gpaLoop_invalid_error (c : GPACourse)
    (hbad : dictGet GRADE_POINTS (pyStrip (pyUpper c.grade)) = none) :
    ∀ courses : List GPACourse, c ∈ courses →
      ∀ tp tc : ℚ, ∃ e, gpaLoop courses tp tc = .error e := by
  intro courses
  induction courses with
  | nil => intro h; exact absurd h (List.not_mem_nil c)
  | cons d rest ih =>
    intro hmem tp tc
    cases hgp : get_grade_points d.grade with
    | error e => exact ⟨e, by rw [gpaLoop, hgp]⟩
    | ok v =>
      rcases List.mem_cons.mp hmem with heq | hmem2
      · subst heq
        rw [get_grade_points, hbad] at hgp
        exact absurd hgp (by simp)
      · obtain ⟨e, he⟩ := ih hmem2 (tp + d.credits * v) (tc + d.credits)
        exact ⟨e, by rw [gpaLoop, hgp]; exact he⟩

/-- C8: for every non-empty course list whose grades are all in the
13-symbol scale and whose credits are all positive, `calculate_gpa`
returns `gpa = round(Σ(credits·gradePoints)/Σcredits, 2)` (together with
the rounded credit and point totals). -/
theorem calculate_gpa_weighted_average (courses : List GPACourse)
    (hne : courses ≠ [])
    (hgrades : ∀ c ∈ courses, c.grade ∈ validGrades)
    (hcred : ∀ c ∈ courses, 0 < c.credits) :
    calculate_gpa courses = .ok
      { gpa := round2 (totalPoints courses / totalCredits courses),
        total_credits := round2 (totalCredits courses),
        total_points := round2 (totalPoints courses) } := by
  have hempty : courses.isEmpty = false := by
    cases courses with
    | nil => exact absurd rfl hne
    | cons a l => rfl
  have hloop := gpaLoop_eq_ok courses hgrades 0 0
  have hpos := totalCredits_pos courses hne hcred
  unfold calculate_gpa
  rw [if_neg (by simp [hempty]), hloop]
  simp only [zero_add]
  rw [if_neg hpos.ne']

/-- Witness for C8 at the worked example of the spec:
[(3, A), (3, B+)] gives gpa 73/20 = 3.65, credits 6, points 21.9. -/
theorem calculate_gpa_weighted_average_witness :
    calculate_gpa demoCourses = .ok ⟨73/20, 6, 219/10⟩ := by
  have h := calculate_gpa_weighted_average demoCourses (by decide) (by decide)
    (by intro c hc; fin_cases hc <;> norm_num)
  have g1 : gradePointsOf "A" = 4 := rfl
  have g2 : gradePointsOf "B+" = 33/10 := rfl
  have e1 : totalPoints demoCourses = 219/10 := by
    simp only [totalPoints, demoCourses, List.map_cons, List.map_nil, List.sum_cons,
      List.sum_nil, g1, g2]
    norm_num
  have e2 : totalCredits demoCourses = 6 := by
    simp only [totalCredits, demoCourses, List.map_cons, List.map_nil, List.sum_cons,
      List.sum_nil]
    norm_num
  rw [h, e1, e2]
  have e3 : (219 : ℚ)/10/6 = 73/20 := by norm_num
  rw [e3, round2_int (73/20) 365 (by norm_num), round2_int 6 600 (by norm_num),
    round2_int (219/10) 2190 (by norm_num)]

/-- C9 counterexample: the grade "a" is not one of the 13 symbols of the
scale, yet `calculate_gpa` accepts it (the code uppercases and strips the
grade before the lookup), returning gpa 4.0 instead of a validation
error. -/
theorem calculate_gpa_lowercase_grade_accepted :
    ¬ ("a" ∈ validGrades)
    ∧ calculate_gpa [⟨"Course", 3, "a"⟩] = .ok ⟨4, 3, 12⟩ := by
  constructor
  · decide
  · have hg : get_grade_points "a" = .ok 4 := rfl
    have hloop : gpaLoop [⟨"Course", 3, "a"⟩] 0 0 = .ok (12, 3) := by
      simp only [gpaLoop, hg]
      norm_num
    unfold calculate_gpa
    rw [if_neg (by simp)]
    simp only [hloop]
    rw [if_neg (by norm_num : ¬ ((3:ℚ) = 0))]
    have h43 : (12 : ℚ)/3 = 4 := by norm_num
    rw [h43, round2_int 4 400 (by norm_num), round2_int 3 300 (by norm_num),
      round2_int 12 1200 (by norm_num)]

/-- C9 (amended): a course whose grade, after uppercasing and stripping
whitespace, is not in the 13-symbol scale always makes `calculate_gpa`
fail with a validation error, regardless of credits and of the other
courses. -/
theorem calculate_gpa_invalid_grade_error (courses : List GPACourse)
    (c : GPACourse) (hmem : c ∈ courses)
    (hbad : dictGet GRADE_POINTS (pyStrip (pyUpper c.grade)) = none) :
    ∃ e, calculate_gpa courses = .error e := by
  have hempty : courses.isEmpty = false := by
    cases courses with
    | nil => exact absurd hmem (List.not_mem_nil c)
    | cons a l => rfl
  obtain ⟨e, he⟩ := gpaLoop_invalid_error c hbad courses hmem 0 0
  refine ⟨e, ?_⟩
  unfold calculate_gpa
  rw [if_neg (by simp [hempty]), he]

/-- Witness for the amended C9: grade "Z" fails validation. -/
theorem calculate_gpa_invalid_grade_error_witness :
    ∃ e, calculate_gpa [⟨"Course", 3, "Z"⟩] = .error e :=
  calculate_gpa_invalid_grade_error [⟨"Course", 3, "Z"⟩] ⟨"Course", 3, "Z"⟩
    (by decide) (by decide)

/-- C1: in GROUNDED mode (QA chain present), if the chain invocation or
the source retrieval raises and the direct LLM call succeeds with answer
`a`, `chat` does not propagate the error: it returns a successful result
whose answer is the direct LLM answer and whose sources are empty. -/
theorem chat_grounded_fallback (env : ChatEnv) (fresh : String) (s : RAGChatbot)
    (message : String) (cid : Option String) (a : String)
    (hchain : s.qa_chain = true)
    (herr : env.qaInvoke message = none ∨
      (s.vector_store ≠ none ∧ env.retrieve message = none))
    (hllm : env.llm message = some a) :
    (chat env fresh s message cid).2 =
      .ok { answer := a, conversation_id := resolve_cid fresh cid, sources := [] } := by
  have hca : chatAnswer env s message = .ok (a, []) := by
    unfold chatAnswer
    rw [hchain]
    rcases herr with hq | hpair
    · simp [hq, hllm]
    · obtain ⟨hvs, hr⟩ := hpair
      cases hvso : s.vector_store with
      | none => exact absurd hvso hvs
      | some vs =>
        cases hqi : env.qaInvoke message with
        | none => simp [hqi, hllm]
        | some ans => simp [hqi, hr, hllm]
  rw [chat_eq_ok env fresh s message cid a [] hca]

/-- Witness for C1: on an engine with one indexed document, an
environment whose QA chain raises but whose LLM succeeds yields a
successful DIRECT-style result with empty sources. -/
theorem chat_grounded_fallback_witness :
    (chat envQaRaises "t-1" groundedBot "q" none).2 =
      .ok { answer := "fallback answer", conversation_id := "t-1", sources := [] } :=
  chat_grounded_fallback envQaRaises "t-1" groundedBot "q" none "fallback answer"
    rfl (Or.inl rfl) rfl

/-- C2: on every reachable engine state, the cached mode flag selects
DIRECT exactly when the store is unreachable, empty, or its readiness
check raises; in DIRECT mode the LLM is invoked on the message alone and
sources are empty; and an engine with no documents ever indexed starts
in DIRECT mode. -/
theorem chat_direct_mode_selection :
    (∀ s : RAGChatbot, Reachable s → ((s.qa_chain = false) ↔ storeNotReady s))
    ∧ (∀ (env : ChatEnv) (fresh : String) (s : RAGChatbot) (message : String)
        (cid : Option String) (a : String), s.qa_chain = false →
        env.llm message = some a →
        (chat env fresh s message cid).2 =
          .ok { answer := a, conversation_id := resolve_cid fresh cid, sources := [] })
    ∧ (∀ vs : VectorStore, vs.docs = [] → (mkRAGChatbot (some vs)).qa_chain = false)
    ∧ (mkRAGChatbot none).qa_chain = false := by
  refine ⟨fun s hs => reachable_consistent hs, ?_, ?_, rfl⟩
  · intro env fresh s message cid a hchain hllm
    have hca : chatAnswer env s message = .ok (a, []) := by
      unfold chatAnswer
      rw [hchain]
      simp [hllm]
    rw [chat_eq_ok env fresh s message cid a [] hca]
  · intro vs hvs
    unfold mkRAGChatbot update_qa_chain
    by_cases hc : vs.countOk = true
    · simp [hc, hvs]
    · simp [hc, hvs]

/-- Witness for C2: the never-indexed engine is in DIRECT mode and a
chat on it returns the direct LLM answer with empty sources. -/
theorem chat_direct_mode_selection_witness :
    ((directBot.qa_chain = false) ↔ storeNotReady directBot)
    ∧ (chat envAllOk "w-2" directBot "hello" none).2 =
      .ok { answer := "direct answer", conversation_id := "w-2", sources := [] } :=
  ⟨chat_direct_mode_selection.1 directBot (Reachable.init none),
   chat_direct_mode_selection.2.1 envAllOk "w-2" directBot "hello" none "direct answer"
     rfl rfl⟩

/-- C3 counterexample: a caller-supplied `conversationId` that refers to
no existing Conversation is returned as-is; the engine does not allocate
the freshly generated token (here "fresh-token") in that case. -/
theorem chat_unknown_cid_not_fresh :
    dictGet directBot.conversations "invented-token" = none
    ∧ (chat envAllOk "fresh-token" directBot "hello" (some "invented-token")).2 =
      .ok { answer := "direct answer", conversation_id := "invented-token", sources := [] }
    ∧ "invented-token" ≠ "fresh-token" :=
  ⟨rfl, rfl, by decide⟩

/-- C3 (amended): a fresh token is allocated and returned exactly when
`conversationId` is absent or empty (its prior non-use is the UUID
assumption); a caller-supplied non-empty token is returned unchanged,
its Conversation being created empty on first reference and reused
otherwise (the new turns are appended to whatever history the token
already had). -/
theorem chat_cid_resolution (env : ChatEnv) (fresh : String) (s : RAGChatbot)
    (message : String) (cid : Option String) (r : ChatResult)
    (h : (chat env fresh s message cid).2 = .ok r) :
    r.conversation_id = resolve_cid fresh cid
    ∧ (cid = none ∨ cid = some "" → r.conversation_id = fresh)
    ∧ (∀ c : String, cid = some c → c ≠ "" → r.conversation_id = c)
    ∧ get_conversation_history (chat env fresh s message cid).1 r.conversation_id =
        get_conversation_history s r.conversation_id ++
          [⟨"user", message⟩, ⟨"assistant", r.answer⟩] := by
  obtain ⟨hca, hcid⟩ := chat_snd_ok_inv env fresh s message cid r h
  refine ⟨hcid, ?_, ?_, ?_⟩
  · rintro (rfl | rfl)
    · simpa [resolve_cid] using hcid
    · simpa [resolve_cid] using hcid
  · rintro c rfl hc
    rw [hcid]
    simp [resolve_cid, hc]
  · rw [hcid]
    exact hist_after_chat_ok env fresh s message cid r.answer r.sources hca

/-- Witness for the amended C3: with an absent id the returned token is
the freshly drawn one. -/
theorem chat_cid_resolution_witness :
    ChatResult.conversation_id
      { answer := "direct answer", conversation_id := "w-3", sources := [] } =
      resolve_cid "w-3" none :=
  (chat_cid_resolution envAllOk "w-3" directBot "hi" none
    { answer := "direct answer", conversation_id := "w-3", sources := [] } rfl).1

/-- C4 counterexample: a retrieved document of 2 characters ("hi", well
under 200) still gets the truncation marker appended: the sources entry
is "hi...", not the unmodified text "hi". -/
theorem chat_truncation_marker_always :
    (chat envAllOk "t-4" groundedBot "q" none).2 =
      .ok { answer := "grounded answer", conversation_id := "t-4", sources := ["hi..."] }
    ∧ "hi".length ≤ 200
    ∧ "hi..." ≠ "hi" :=
  ⟨rfl, by decide, by decide⟩

/-- C4 (amended): in GROUNDED mode with successful generation and
retrieval, every sources entry is the first 200 characters of the
retrieved document's text with the marker "..." appended
unconditionally, whatever the document's length. -/
theorem chat_sources_truncation (env : ChatEnv) (fresh : String) (s : RAGChatbot)
    (message : String) (cid : Option String) (a : String) (docs : List Document)
    (vs : VectorStore)
    (hchain : s.qa_chain = true)
    (hq : env.qaInvoke message = some a)
    (hvs : s.vector_store = some vs)
    (hr : env.retrieve message = some docs) :
    (chat env fresh s message cid).2 =
      .ok { answer := a, conversation_id := resolve_cid fresh cid,
            sources := docs.map (fun d => pySlice d.page_content 200 ++ "...") } := by
  have hca : chatAnswer env s message =
      .ok (a, docs.map (fun d => pySlice d.page_content 200 ++ "...")) := by
    unfold chatAnswer
    rw [hchain]
    simp [hq, hvs, hr]
  rw [chat_eq_ok env fresh s message cid a _ hca]

/-- Witness for the amended C4 on the one-document engine. -/
theorem chat_sources_truncation_witness :
    (chat envAllOk "w-4" groundedBot "q" none).2 =
      .ok { answer := "grounded answer", conversation_id := "w-4", sources := ["hi..."] } := by
  have h := chat_sources_truncation envAllOk "w-4" groundedBot "q" none "grounded answer"
    [⟨"hi", []⟩] ⟨[⟨"hi", []⟩], true⟩ rfl rfl rfl rfl
  rw [h]
  rfl

/-- C5: every successful chat appends exactly one user turn then one
assistant turn to the resolved conversation; a chat call never shrinks
any conversation's turn sequence; and two sequential successful chats,
the first with an absent id, the second with the returned id, produce a
history of exactly 4 turns in order [user, assistant, user, assistant]. -/
theorem chat_turn_appending :
    (∀ (env : ChatEnv) (fresh : String) (s : RAGChatbot) (message : String)
        (cid : Option String) (r : ChatResult),
        (chat env fresh s message cid).2 = .ok r →
        get_conversation_history (chat env fresh s message cid).1 r.conversation_id =
          get_conversation_history s r.conversation_id ++
            [⟨"user", message⟩, ⟨"assistant", r.answer⟩])
    ∧ (∀ (env : ChatEnv) (fresh : String) (s : RAGChatbot) (message : String)
        (cid : Option String) (k : String),
        ∃ t, get_conversation_history (chat env fresh s message cid).1 k =
          get_conversation_history s k ++ t)
    ∧ (∀ (env1 env2 : ChatEnv) (fresh fresh2 : String) (s : RAGChatbot)
        (m1 m2 : String) (r1 r2 : ChatResult),
        get_conversation_history s fresh = [] → fresh ≠ "" →
        (chat env1 fresh s m1 none).2 = .ok r1 →
        (chat env2 fresh2 (chat env1 fresh s m1 none).1 m2 (some r1.conversation_id)).2 =
          .ok r2 →
        r1.conversation_id = fresh ∧
        get_conversation_history
            (chat env2 fresh2 (chat env1 fresh s m1 none).1 m2 (some r1.conversation_id)).1
            r2.conversation_id =
          [⟨"user", m1⟩, ⟨"assistant", r1.answer⟩, ⟨"user", m2⟩,
            ⟨"assistant", r2.answer⟩]) := by
  refine ⟨?_, ?_, ?_⟩
  · intro env fresh s message cid r h
    obtain ⟨hca, hcid⟩ := chat_snd_ok_inv env fresh s message cid r h
    rw [hcid]
    exact hist_after_chat_ok env fresh s message cid r.answer r.sources hca
  · intro env fresh s message cid k
    by_cases hk : k = resolve_cid fresh cid
    · subst hk
      cases hca : chatAnswer env s message with
      | error e =>
        exact ⟨[⟨"user", message⟩], hist_after_chat_error env fresh s message cid e hca⟩
      | ok p =>
        obtain ⟨ans, srcs⟩ := p
        exact ⟨[⟨"user", message⟩, ⟨"assistant", ans⟩],
          hist_after_chat_ok env fresh s message cid ans srcs hca⟩
    · refine ⟨[], ?_⟩
      rw [hist_after_chat_other env fresh s message cid k hk, List.append_nil]
  · intro env1 env2 fresh fresh2 s m1 m2 r1 r2 h0 hne h1 h2
    obtain ⟨hca1, hcid1⟩ := chat_snd_ok_inv env1 fresh s m1 none r1 h1
    have hr1 : r1.conversation_id = fresh := by
      rw [hcid1]
      rfl
    obtain ⟨hca2, hcid2⟩ := chat_snd_ok_inv env2 fresh2 _ m2 (some r1.conversation_id) r2 h2
    have hres2 : resolve_cid fresh2 (some r1.conversation_id) = fresh := by
      rw [hr1]
      simp [resolve_cid, hne]
    have hist1 : get_conversation_history (chat env1 fresh s m1 none).1 fresh =
        [⟨"user", m1⟩, ⟨"assistant", r1.answer⟩] := by
      have hh := hist_after_chat_ok env1 fresh s m1 none r1.answer r1.sources hca1
      simp only [resolve_cid] at hh
      rw [h0] at hh
      simpa using hh
    have hist2 := hist_after_chat_ok env2 fresh2 (chat env1 fresh s m1 none).1 m2
      (some r1.conversation_id) r2.answer r2.sources hca2
    rw [hres2, hist1] at hist2
    refine ⟨hr1, ?_⟩
    rw [hcid2, hres2]
    simpa using hist2

/-- Witness for C5: two sequential chats on the never-indexed engine
with the same returned id "w5" yield exactly 4 turns in order. -/
theorem chat_turn_appending_witness :
    ChatResult.conversation_id { answer := "direct answer", conversation_id := "w5", sources := [] } = "w5"
    ∧ get_conversation_history
        (chat envAllOk "w5x" (chat envAllOk "w5" directBot "m1" none).1 "m2"
          (some "w5")).1 "w5" =
      [⟨"user", "m1"⟩, ⟨"assistant", "direct answer"⟩, ⟨"user", "m2"⟩,
        ⟨"assistant", "direct answer"⟩] :=
  chat_turn_appending.2.2 envAllOk envAllOk "w5" "w5x" directBot "m1" "m2"
    { answer := "direct answer", conversation_id := "w5", sources := [] }
    { answer := "direct answer", conversation_id := "w5", sources := [] }
    rfl (by decide) rfl rfl

/-- C6: `history` is total and read-only: an unknown identifier yields
the empty sequence, a known one yields exactly the stored turn
sequence. -/
theorem get_history_total (s : RAGChatbot) (cid : String) :
    (dictGet s.conversations cid = none → get_conversation_history s cid = [])
    ∧ (∀ turns : List Turn, dictGet s.conversations cid = some turns →
        get_conversation_history s cid = turns) := by
  constructor
  · intro h
    unfold get_conversation_history
    rw [h]
    rfl
  · intro turns h
    unfold get_conversation_history
    rw [h]
    rfl

/-- Witness for C6: an unknown identifier on a fresh engine gives []. -/
theorem get_history_total_witness :
    get_conversation_history directBot "unknown-id" = [] :=
  (get_history_total directBot "unknown-id").1 rfl

/-- C7: indexing an empty document list is a successful no-op leaving
the whole engine state (hence the store contents) unchanged, even with
no vector store; indexing a non-empty list with no vector store fails
and still leaves the state unchanged. -/
theorem index_empty_noop :
    (∀ (s : RAGChatbot) (metas : Option (List (List (String × String)))),
        index_documents s [] metas = (s, .ok ()))
    ∧ (∀ (s : RAGChatbot) (docs : List String)
        (metas : Option (List (List (String × String)))),
        docs ≠ [] → s.vector_store = none →
        ∃ e, index_documents s docs metas = (s, .error e)) := by
  constructor
  · intro s metas
    rfl
  · intro s docs metas hd hvs
    refine ⟨"Vector store not initialized. ChromaDB dependencies may be missing.", ?_⟩
    cases docs with
    | nil => exact absurd rfl hd
    | cons d ds =>
      unfold index_documents
      simp [hvs]

/-- Witness for C7: both branches at concrete inputs. -/
theorem index_empty_noop_witness :
    index_documents directBot [] none = (directBot, .ok ())
    ∧ ∃ e, index_documents directBot ["doc"] none = (directBot, .error e) :=
  ⟨index_empty_noop.1 directBot none,
   index_empty_noop.2 directBot ["doc"] none (by decide) rfl⟩

/-- C10: in DIRECT mode, if the LLM call raises, the exception
propagates out of `chat`, yet the user turn appended before the failure
survives: the resolved conversation grows by exactly the one user turn,
no assistant turn is appended, and other conversations are untouched. -/
theorem chat_direct_llm_raises (env : ChatEnv) (fresh : String) (s : RAGChatbot)
    (message : String) (cid : Option String)
    (hchain : s.qa_chain = false) (hllm : env.llm message = none) :
    (∃ e, (chat env fresh s message cid).2 = .error e)
    ∧ get_conversation_history (chat env fresh s message cid).1 (resolve_cid fresh cid) =
        get_conversation_history s (resolve_cid fresh cid) ++ [⟨"user", message⟩]
    ∧ (∀ k : String, k ≠ resolve_cid fresh cid →
        get_conversation_history (chat env fresh s message cid).1 k =
          get_conversation_history s k) := by
  have hca : chatAnswer env s message = .error "llm raised" := by
    unfold chatAnswer
    rw [hchain]
    simp [hllm]
  refine ⟨⟨"llm raised", ?_⟩, hist_after_chat_error env fresh s message cid _ hca,
    fun k hk => hist_after_chat_other env fresh s message cid k hk⟩
  rw [chat_eq_error env fresh s message cid _ hca]

/-- Witness for C10 on the never-indexed engine with a raising LLM. -/
theorem chat_direct_llm_raises_witness :
    (∃ e, (chat envAllRaise "w10" directBot "boom" none).2 = .error e)
    ∧ get_conversation_history (chat envAllRaise "w10" directBot "boom" none).1
        (resolve_cid "w10" none) =
      get_conversation_history directBot (resolve_cid "w10" none) ++
        [⟨"user", "boom"⟩] :=
  ⟨(chat_direct_llm_raises envAllRaise "w10" directBot "boom" none rfl rfl).1,
   (chat_direct_llm_raises envAllRaise "w10" directBot "boom" none rfl rfl).2.1⟩

end Backend
